import Mathlib

/-
Verification development for the Nimble semantic analyzer
(src/nimblesemantics.py).  The analyzer runs two listener passes over a
parse tree: DefineScopesAndSymbols (pass 1) and
InferTypesAndCheckConstraints (pass 2).  Below, the parse tree is a
Lean inductive, each listener callback of nimblesemantics.py is a Lean
function on an explicit analyzer state, and the depth-first walk is a
recursive traversal invoking the callbacks in ANTLR listener order
(enter node, children left to right, exit node).

The repository ships only nimblesemantics.py and testcases.py; the
symboltable and errorlog modules it imports are modelled from the
specification (spec.md sections 3, 4.1 and 6), as marked on each such
definition.  Python dictionary and attribute failures (KeyError,
AttributeError) are modelled with an Except monad, since several code
paths of the source raise them.
-/

namespace Nimble

/-- Modelled from the spec: symboltable.PrimitiveType, the closed
enumeration of primitive types including the ERROR sentinel. -/
inductive PrimitiveType
  | Int
  | Bool
  | String
  | Void
  | ERROR
  deriving DecidableEq, Repr

/-- Modelled from the spec: symboltable.FunctionType.  Pass 1 of the
source builds the parameter list by appending the raw TYPE annotation
tokens of each parameterDef (param.TYPE()), not PrimitiveType values,
so the parameter component is the list of those token texts. -/
structure FunctionType where
  paramTypeTokens : List String
  returnType : PrimitiveType
  deriving DecidableEq, Repr

/-- Modelled from the spec: the type stored in a Symbol is either a
PrimitiveType or a FunctionType. -/
inductive NimbleType
  | prim (p : PrimitiveType)
  | func (ft : FunctionType)
  deriving DecidableEq, Repr

/-- Modelled from the spec: symboltable.Symbol with its name, type and
isParameter flag. -/
structure Symbol where
  name : String
  type : NimbleType
  isParam : Bool
  deriving DecidableEq, Repr

/-- Values that the source stores into the node_types dictionary.
Besides primitive and function types, exitVariable of the source
stores a whole Symbol object, and the (unreachable) success path of
exitFuncCall would store a scope's return_type, which for the global
scope is Python None. -/
inductive PyVal
  | prim (p : PrimitiveType)
  | func (ft : FunctionType)
  | sym (s : Symbol)
  | pyNone
  deriving DecidableEq, Repr

/-- View of a Symbol's type as a dictionary value, used where the
source compares symbol.type against a node_types entry. -/
def NimbleType.toVal : NimbleType → PyVal
  | .prim p => .prim p
  | .func f => .func f

/-- View of an optional declared return type (Python None for the
global scope) as a dictionary value. -/
def optToVal : Option PrimitiveType → PyVal
  | some p => .prim p
  | none => .pyNone

/-- Modelled from the spec: errorlog.Category, the closed taxonomy of
semantic fault categories. -/
inductive Category
  | UNDEFINED_NAME
  | DUPLICATE_NAME
  | INVALID_CALL
  | INVALID_RETURN
  | ASSIGN_TO_WRONG_TYPE
  | CONDITION_NOT_BOOL
  | UNPRINTABLE_EXPRESSION
  | INVALID_NEGATION
  | INVALID_BINARY_OP
  deriving DecidableEq, Repr

/-- Modelled from the spec: symboltable.Scope.  A scope has a name, an
optional declared return type (None for the global scope), a local
symbol map in insertion order, and named child scopes in creation
order; the enclosing-scope back link is represented by navigating with
paths of child names from the global root. -/
inductive ScopeTree
  | node (name : String) (returnType : Option PrimitiveType)
      (symbols : List Symbol) (children : List ScopeTree)

def ScopeTree.name : ScopeTree → String
  | .node n _ _ _ => n

def ScopeTree.returnType : ScopeTree → Option PrimitiveType
  | .node _ r _ _ => r

def ScopeTree.symbols : ScopeTree → List Symbol
  | .node _ _ s _ => s

def ScopeTree.children : ScopeTree → List ScopeTree
  | .node _ _ _ c => c

/-- Modelled from the spec: Scope.resolve_locally, a lookup in the
current scope's local symbol map only, never the enclosing scopes. -/
def ScopeTree.resolveLocally (s : ScopeTree) (n : String) : Option Symbol :=
  s.symbols.find? (fun sym => sym.name == n)

/-- Modelled from the spec: Scope.child_scope_named, lookup of a
previously created child scope by name. -/
def ScopeTree.childNamed (s : ScopeTree) (n : String) : Option ScopeTree :=
  s.children.find? (fun c => c.name == n)

/-- Modelled from the spec: Scope.parameters, the symbols flagged
isParameter in declaration order. -/
def ScopeTree.parameters (s : ScopeTree) : List Symbol :=
  s.symbols.filter (fun sym => sym.isParam)

/-- Modelled from the spec: Scope.define adds a Symbol to the scope's
local map (insertion order preserved). -/
def ScopeTree.defineHere (s : ScopeTree) (sym : Symbol) : ScopeTree :=
  match s with
  | .node n r syms cs => .node n r (syms ++ [sym]) cs

/-- Modelled from the spec: Scope.create_child_scope links a new empty
child scope under the given scope. -/
def ScopeTree.addChild (s : ScopeTree) (nm : String) (rt : Option PrimitiveType) : ScopeTree :=
  match s with
  | .node n r syms cs => .node n r syms (cs ++ [.node nm rt [] []])

/-- Navigate from a scope down a path of child names. -/
def getScope : List String → ScopeTree → Option ScopeTree
  | [], s => some s
  | n :: p, s =>
    match s.childNamed n with
    | some c => getScope p c
    | none => none

/-- Rewrite the first child carrying the given name. -/
def replaceChild (nm : String) (f : ScopeTree → ScopeTree) : List ScopeTree → List ScopeTree
  | [] => []
  | c :: cs => if c.name == nm then f c :: cs else c :: replaceChild nm f cs

/-- Apply an update to the scope at the given path (identity when the
path dangles, which no analyzed run reaches). -/
def updateAt (f : ScopeTree → ScopeTree) : List String → ScopeTree → ScopeTree
  | [], s => f s
  | nm :: p, .node n r syms cs => .node n r syms (replaceChild nm (updateAt f p) cs)

/-- Python runtime failures raised by the source: a missing dictionary
key and a missing attribute (including attribute access on None). -/
inductive PyErr
  | keyError
  | attributeError
  deriving DecidableEq, Repr

/-- State threaded through a pass: the scope tree rooted at the global
scope, the current-scope cursor (a path of child names; none models
the Python None obtained from the global scope's enclosing_scope), the
node_types dictionary keyed by node identity (a path of child indices
in the parse tree), and the error log in append order.  Log records
keep the node and the category; message strings are omitted, but every
dictionary or attribute access their f-strings perform is embedded,
since some of those accesses raise. -/
structure AnalyzerState where
  globalScope : ScopeTree
  cursor : Option (List String)
  typeOf : List (List Nat × PyVal)
  log : List (List Nat × Category)

/-- Dereference the current-scope cursor; attribute access on a None
cursor raises AttributeError as in Python. -/
def AnalyzerState.currentScope (st : AnalyzerState) : Except PyErr ScopeTree :=
  match st.cursor with
  | none => .error .attributeError
  | some p =>
    match getScope p st.globalScope with
    | some s => .ok s
    | none => .error .keyError

/-- The assignment self.current_scope = self.current_scope.enclosing_scope:
at the global scope the enclosing scope is None, and on a None cursor
the attribute access raises. -/
def AnalyzerState.popScope (st : AnalyzerState) : Except PyErr AnalyzerState :=
  match st.cursor with
  | none => .error .attributeError
  | some [] => .ok { st with cursor := none }
  | some p => .ok { st with cursor := some p.dropLast }

/-- Store into the node_types dictionary (later entries shadow). -/
def AnalyzerState.setType (st : AnalyzerState) (p : List Nat) (v : PyVal) : AnalyzerState :=
  { st with typeOf := (p, v) :: st.typeOf }

/-- Append a record to the error log. -/
def AnalyzerState.logFault (st : AnalyzerState) (p : List Nat) (c : Category) : AnalyzerState :=
  { st with log := st.log ++ [(p, c)] }

/-- Subscript the node_types dictionary; a missing key raises KeyError. -/
def lookupType (st : AnalyzerState) (p : List Nat) : Except PyErr PyVal :=
  match st.typeOf.lookup p with
  | some v => .ok v
  | none => .error .keyError

/-- Define a symbol in the scope the cursor points at. -/
def defineInCurrent (st : AnalyzerState) (sym : Symbol) : Except PyErr AnalyzerState :=
  match st.cursor with
  | none => .error .attributeError
  | some p => .ok { st with globalScope := updateAt (fun s => s.defineHere sym) p st.globalScope }

/-- Define a symbol in self.current_scope.enclosing_scope; at the
global scope that is None and the define call raises. -/
def defineInEnclosing (st : AnalyzerState) (sym : Symbol) : Except PyErr AnalyzerState :=
  match st.cursor with
  | none => .error .attributeError
  | some [] => .error .attributeError
  | some p => .ok { st with globalScope := updateAt (fun s => s.defineHere sym) p.dropLast st.globalScope }

/-- Create a child scope under the cursor and descend into it, as in
self.current_scope = self.current_scope.create_child_scope(name, rt). -/
def pushChild (st : AnalyzerState) (nm : String) (rt : Option PrimitiveType) : Except PyErr AnalyzerState :=
  match st.cursor with
  | none => .error .attributeError
  | some p =>
    .ok { st with globalScope := updateAt (fun s => s.addChild nm rt) p st.globalScope,
                  cursor := some (p ++ [nm]) }

end Nimble

/-
Pass 2 listener callbacks (class InferTypesAndCheckConstraints of
src/nimblesemantics.py).  Node arguments are the identity paths of the
parse-tree nodes involved; the operand types referenced through
self.type_of are read from the state.  The Python `and`/`or` operators
short-circuit, so a conditional of the source whose later conjunct
subscripts self.type_of only performs that subscript when the earlier
conjunct holds; the translations below preserve that evaluation order
by flattening the conditional chains accordingly.
-/

/-- Python truth value of a bare PrimitiveType enum member: Enum
members define no specialized bool conversion and are truthy. -/
def pyTruthy (_ : Nimble.PrimitiveType) : Bool := true

namespace Nimble

/-- enterMain of pass 2: descend into the child scope named $main. -/
def p2_enterScope (nm : String) (st : AnalyzerState) : Except PyErr AnalyzerState := do
  let cur ← st.currentScope
  match cur.childNamed nm with
  | some _ => .ok { st with cursor := st.cursor.map (fun p => p ++ [nm]) }
  | none => .error .keyError

/-- Source lines 139-149, exitFuncDef of pass 2, first half: for each
parameterDef whose TYPE text is Int, Bool or String, define the
parameter in the current scope; other TYPE texts match no branch. -/
def p2_defineParams : List (String × String) → AnalyzerState → Except PyErr AnalyzerState
  | [], st => .ok st
  | (pid, pty) :: rest, st => do
    let st1 ←
      if pty = "Int" then defineInCurrent st ⟨pid, .prim .Int, true⟩
      else if pty = "Bool" then defineInCurrent st ⟨pid, .prim .Bool, true⟩
      else if pty = "String" then defineInCurrent st ⟨pid, .prim .String, true⟩
      else .ok st
    p2_defineParams rest st1

/-- Source lines 139-149, exitFuncDef of pass 2: define the declared
parameters in the current scope, then restore the cursor to the
enclosing scope. -/
def p2_exitFuncDef (params : List (String × String)) (st : AnalyzerState) : Except PyErr AnalyzerState := do
  let st1 ← p2_defineParams params st
  st1.popScope

/-- Source lines 153-176, the scope-matching loop of exitFuncCall.
For each child scope of the call site's current scope whose name
matches the callee: params is the singleton list [parameters()], so
the zero-argument corner case (len(params) == 0) never fires; when the
argument count equals the call-site scope's parameter count, the inner
loop over range(len(params)) runs one iteration which subscripts
self.type_of with ctx.expr(0) (None when there is no argument, raising
KeyError) and then reads .type off params[0], which is a list and so
raises AttributeError.  A Python `return` inside the loop is modelled
by an .ok (some _) result; falling off the loop yields .ok none. -/
def funcCallLoop (callPath : List Nat) (fname : String) (args : List (List Nat))
    (cur : ScopeTree) : List ScopeTree → AnalyzerState → Except PyErr (Option AnalyzerState)
  | [], _ => .ok none
  | sc :: rest, st =>
    if fname = sc.name then
      let params : List (List Symbol) := [cur.parameters]
      if args = [] ∧ params.length = 0 then
        match cur.childNamed fname with
        | some c => funcCallLoop callPath fname args cur rest (st.setType callPath (optToVal c.returnType))
        | none => .error .keyError
      else if args.length = cur.parameters.length then
        match args.get? 0 with
        | none => .error .keyError
        | some a0 => do
          let _ ← lookupType st a0
          .error .attributeError
      else funcCallLoop callPath fname args cur rest st
    else funcCallLoop callPath fname args cur rest st

/-- Source lines 153-176, exitFuncCall of pass 2.  When the loop falls
through, the final error message formats ctx.expr().getText(), and
ctx.expr() with no index is a Python list, which has no getText
attribute; the AttributeError is raised before error_log.add runs. -/
def exitFuncCall (callPath : List Nat) (fname : String) (args : List (List Nat))
    (st : AnalyzerState) : Except PyErr AnalyzerState := do
  let cur ← st.currentScope
  let r ← funcCallLoop callPath fname args cur cur.children st
  match r with
  | some st1 => .ok st1
  | none => .error .attributeError

/-- One conjunction of the exitReturn chain: the source condition
(self.current_scope.return_type == P and self.type_of[ctx.expr()] == P)
with Python short-circuiting, so the dictionary subscript happens only
when the return type matches P. -/
def retCond (st : AnalyzerState) (ep : List Nat) (rt : Option PrimitiveType)
    (p : PrimitiveType) : Except PyErr Bool :=
  if rt = some p then do
    let t ← lookupType st ep
    pure (decide (t = PyVal.prim p))
  else pure false

/-- Source lines 180-201, exitReturn of pass 2.  With an expression
present, the source tests not (Int and Int), elif not (Bool and Bool),
elif not (String and String); without an expression it requires a Void
return type.  Both branches end by assigning the enclosing scope to
the current-scope cursor.  The fault messages format the expression
text and self.current_scope.return_type, neither of which can raise
here. -/
def exitReturn (path : List Nat) (retPath : Option (List Nat))
    (st : AnalyzerState) : Except PyErr AnalyzerState := do
  let st1 ←
    match retPath with
    | some ep => do
      let cur ← st.currentScope
      let rt := cur.returnType
      let c1 ← retCond st ep rt .Int
      if c1 = false then pure (st.logFault path .INVALID_RETURN)
      else do
        let c2 ← retCond st ep rt .Bool
        if c2 = false then pure (st.logFault path .INVALID_RETURN)
        else do
          let c3 ← retCond st ep rt .String
          if c3 = false then pure (st.logFault path .INVALID_RETURN)
          else pure st
    | none => do
      let cur ← st.currentScope
      if cur.returnType = some PrimitiveType.Void then pure st
      else pure (st.logFault path .INVALID_RETURN)
  st1.popScope

/-- Source lines 206-227, exitVarDec of pass 2.  When the name is not
yet local: a recognized declared type defines the symbol and, if an
initializer is present, re-resolves the symbol and compares its type
with the initializer's inferred type; an unrecognized declared type
formats the message self.type_of[ctx].name, and the VarDec node is
never in node_types, so the subscript raises KeyError before the fault
is logged.  An already-local name logs DUPLICATE_NAME. -/
def exitVarDec (path : List Nat) (id ty : String) (initPath : Option (List Nat))
    (st : AnalyzerState) : Except PyErr AnalyzerState := do
  let cur ← st.currentScope
  match cur.resolveLocally id with
  | none =>
    let defineAndCheck : NimbleType → Except PyErr AnalyzerState := fun τ => do
      let st1 ← defineInCurrent st ⟨id, τ, false⟩
      match initPath with
      | none => .ok st1
      | some ip => do
        let cur1 ← st1.currentScope
        match cur1.resolveLocally id with
        | none => .error .attributeError
        | some x => do
          let v ← lookupType st1 ip
          if x.type.toVal = v then .ok st1
          else .ok (st1.logFault path .ASSIGN_TO_WRONG_TYPE)
    if ty = "Int" then defineAndCheck (.prim .Int)
    else if ty = "String" then defineAndCheck (.prim .String)
    else if ty = "Bool" then defineAndCheck (.prim .Bool)
    else do
      let _ ← lookupType st path
      .ok (st.logFault path .ASSIGN_TO_WRONG_TYPE)
  | some _ => .ok (st.logFault path .DUPLICATE_NAME)

/-- Source lines 237-246, exitAssignment of pass 2: an unresolved
target types the node ERROR and logs UNDEFINED_NAME; a resolved target
whose declared type differs from the right-hand side's inferred type
types the node ERROR and logs ASSIGN_TO_WRONG_TYPE. -/
def exitAssignment (path : List Nat) (id : String) (rhsPath : List Nat)
    (st : AnalyzerState) : Except PyErr AnalyzerState := do
  let cur ← st.currentScope
  match cur.resolveLocally id with
  | none => .ok ((st.setType path (.prim .ERROR)).logFault path .UNDEFINED_NAME)
  | some x => do
    let v ← lookupType st rhsPath
    if x.type.toVal = v then .ok st
    else .ok ((st.setType path (.prim .ERROR)).logFault path .ASSIGN_TO_WRONG_TYPE)

/-- Source lines 250-253, exitWhile of pass 2. -/
def exitWhile (path condPath : List Nat) (st : AnalyzerState) : Except PyErr AnalyzerState := do
  let t ← lookupType st condPath
  if t ≠ PyVal.prim .Bool then
    .ok ((st.setType path (.prim .ERROR)).logFault path .CONDITION_NOT_BOOL)
  else .ok st

/-- Source lines 255-258, exitIf of pass 2. -/
def exitIf (path condPath : List Nat) (st : AnalyzerState) : Except PyErr AnalyzerState := do
  let t ← lookupType st condPath
  if t ≠ PyVal.prim .Bool then
    .ok ((st.setType path (.prim .ERROR)).logFault path .CONDITION_NOT_BOOL)
  else .ok st

/-- Source lines 260-263, exitPrint of pass 2.  The source condition
is (self.type_of[ctx.expr()] == PrimitiveType.ERROR or
PrimitiveType.Void): Python parses the second disjunct as the bare
enum member, which is truthy, so the disjunction holds for every
operand type. -/
def exitPrint (path argPath : List Nat) (st : AnalyzerState) : Except PyErr AnalyzerState := do
  let t ← lookupType st argPath
  if t = PyVal.prim .ERROR ∨ pyTruthy PrimitiveType.Void = true then
    .ok ((st.setType path (.prim .ERROR)).logFault path .UNPRINTABLE_EXPRESSION)
  else .ok st

/-- The else branch of exitNeg: the node is typed ERROR first, then the
fault message formats self.type_of[ctx].name (the just-stored ERROR),
then the fault is logged. -/
def negFail (path : List Nat) (st : AnalyzerState) : Except PyErr AnalyzerState := do
  let st1 := st.setType path (.prim .ERROR)
  let _ ← lookupType st1 path
  .ok (st1.logFault path .INVALID_NEGATION)

/-- Source lines 272-281, exitNeg of pass 2: minus on an Int operand
yields Int, bang on a Bool operand yields Bool, anything else types
the node ERROR with an INVALID_NEGATION fault.  Each condition checks
the operator text first, so the operand type is only read when the
operator matches. -/
def exitNeg (path : List Nat) (op : String) (argPath : List Nat)
    (st : AnalyzerState) : Except PyErr AnalyzerState := do
  if op = "-" then
    let t ← lookupType st argPath
    if t = PyVal.prim .Int then .ok (st.setType path (.prim .Int))
    else negFail path st
  else if op = "!" then
    let t ← lookupType st argPath
    if t = PyVal.prim .Bool then .ok (st.setType path (.prim .Bool))
    else negFail path st
  else negFail path st

/-- Source lines 283-284, exitParens of pass 2: the node takes the
inner expression's stored type unchanged. -/
def exitParens (path argPath : List Nat) (st : AnalyzerState) : Except PyErr AnalyzerState := do
  let t ← lookupType st argPath
  .ok (st.setType path t)

/-- The else branch shared by the three binary-operator callbacks: the
node is typed ERROR and an INVALID_BINARY_OP fault is logged (the
messages format operand representations, which cannot raise). -/
def binFail (path : List Nat) (st : AnalyzerState) : AnalyzerState :=
  (st.setType path (.prim .ERROR)).logFault path .INVALID_BINARY_OP

/-- Source lines 286-293, exitMulDiv of pass 2: both operands Int with
star or slash yields Int, else ERROR with an INVALID_BINARY_OP fault.
The first operand's type is always read; the second only when the
first is Int. -/
def exitMulDiv (path e0 e1 : List Nat) (op : String) (st : AnalyzerState) :
    Except PyErr AnalyzerState := do
  let t0 ← lookupType st e0
  if t0 = PyVal.prim .Int then
    let t1 ← lookupType st e1
    if t1 = PyVal.prim .Int ∧ (op = "*" ∨ op = "/") then .ok (st.setType path (.prim .Int))
    else .ok (binFail path st)
  else .ok (binFail path st)

/-- Source lines 295-305, exitAddSub of pass 2: both operands Int with
plus or minus yields Int; both operands String with plus yields
String; else ERROR with an INVALID_BINARY_OP fault.  When the first
operand is Int the String clause cannot hold, so the chain reduces to
the two reads below. -/
def exitAddSub (path e0 e1 : List Nat) (op : String) (st : AnalyzerState) :
    Except PyErr AnalyzerState := do
  let t0 ← lookupType st e0
  if t0 = PyVal.prim .Int then
    let t1 ← lookupType st e1
    if t1 = PyVal.prim .Int ∧ (op = "+" ∨ op = "-") then .ok (st.setType path (.prim .Int))
    else .ok (binFail path st)
  else if t0 = PyVal.prim .String then
    let t1 ← lookupType st e1
    if t1 = PyVal.prim .String ∧ op = "+" then .ok (st.setType path (.prim .String))
    else .ok (binFail path st)
  else .ok (binFail path st)

/-- Source lines 307-325, exitCompare of pass 2: Bool operands compare
equal with the double-equals operator, Int operands with double
equals, less or less-equal; each valid combination yields Bool, any
other yields ERROR with an INVALID_BINARY_OP fault.  The four source
clauses are flattened on the first operand's type, preserving which
subscripts of self.type_of are reached. -/
def exitCompare (path e0 e1 : List Nat) (op : String) (st : AnalyzerState) :
    Except PyErr AnalyzerState := do
  let t0 ← lookupType st e0
  if t0 = PyVal.prim .Bool then
    let t1 ← lookupType st e1
    if t1 = PyVal.prim .Bool ∧ op = "==" then .ok (st.setType path (.prim .Bool))
    else .ok (binFail path st)
  else if t0 = PyVal.prim .Int then
    let t1 ← lookupType st e1
    if t1 = PyVal.prim .Int ∧ (op = "==" ∨ op = "<" ∨ op = "<=") then
      .ok (st.setType path (.prim .Bool))
    else .ok (binFail path st)
  else .ok (binFail path st)

/-- Source lines 327-336, exitVariable of pass 2: a name with no local
resolution types the node ERROR and logs UNDEFINED_NAME; otherwise the
source stores the result of resolve_locally itself, a Symbol object,
into self.type_of rather than the symbol's type. -/
def exitVariable (path : List Nat) (nm : String) (st : AnalyzerState) :
    Except PyErr AnalyzerState := do
  let cur ← st.currentScope
  match cur.resolveLocally nm with
  | none => .ok ((st.setType path (.prim .ERROR)).logFault path .UNDEFINED_NAME)
  | some sym => .ok (st.setType path (.sym sym))

/-
Pass 1 listener callbacks (class DefineScopesAndSymbols of
src/nimblesemantics.py).
-/

/-- Source lines 51-52, enterMain of pass 1: create the child scope
named $main with declared return type Void and descend into it. -/
def p1_enterMain (st : AnalyzerState) : Except PyErr AnalyzerState :=
  pushChild st "$main" (some .Void)

/-- Source lines 55-56, exitMain of pass 1: restore the enclosing
scope. -/
def p1_exitMain (st : AnalyzerState) : Except PyErr AnalyzerState :=
  st.popScope

/-- Source lines 59-68, enterFuncDef of pass 1: with a recognized
return TYPE annotation, create a child scope named after the function
with that return type and descend; with no annotation, the same with
return type Void.  An unrecognized annotation matches no branch, so
the cursor does not move. -/
def p1_enterFuncDef (id : String) (retAnn : Option String) (st : AnalyzerState) :
    Except PyErr AnalyzerState :=
  match retAnn with
  | some t =>
    if t = "Int" then pushChild st id (some .Int)
    else if t = "Bool" then pushChild st id (some .Bool)
    else if t = "String" then pushChild st id (some .String)
    else .ok st
  | none => pushChild st id (some .Void)

/-- Source lines 71-98, exitFuncDef of pass 1: type_list collects the
raw parameter TYPE tokens.  With a recognized return TYPE annotation
the FunctionType symbol is defined through
self.current_scope.enclosing_scope.define; with an unrecognized
annotation the fault message formats ctx.expr().getText(), and a
FuncDefContext has no expr accessor, so the AttributeError is raised
before the fault is logged; with no annotation the source calls
self.current_scope.define, placing the symbol in the function's own
body scope.  In every surviving branch the cursor is then restored to
the enclosing scope. -/
def p1_exitFuncDef (id : String) (paramTys : List String) (retAnn : Option String)
    (st : AnalyzerState) : Except PyErr AnalyzerState := do
  let typeList := paramTys
  let st1 ←
    match retAnn with
    | some t =>
      if t = "Int" then defineInEnclosing st ⟨id, .func ⟨typeList, .Int⟩, false⟩
      else if t = "Bool" then defineInEnclosing st ⟨id, .func ⟨typeList, .Bool⟩, false⟩
      else if t = "String" then defineInEnclosing st ⟨id, .func ⟨typeList, .String⟩, false⟩
      else .error .attributeError
    | none => defineInCurrent st ⟨id, .func ⟨typeList, .Void⟩, false⟩
  st1.popScope

/-
The parse tree handed over by the external front end, and the
depth-first listener traversal over it.  Node identity is the path of
child indices from the tree root.
-/

/-- Expression nodes of the Nimble grammar. -/
inductive Expr
  | intLit (n : Int)
  | strLit (s : String)
  | boolLit (b : Bool)
  | varRef (name : String)
  | neg (op : String) (arg : Expr)
  | parens (arg : Expr)
  | mulDiv (lhs : Expr) (op : String) (rhs : Expr)
  | addSub (lhs : Expr) (op : String) (rhs : Expr)
  | compare (lhs : Expr) (op : String) (rhs : Expr)
  | funcCall (id : String) (args : List Expr)

/-- Statement nodes of the Nimble grammar. -/
inductive Stmt
  | varDec (id : String) (typeName : String) (initializer : Option Expr)
  | assignment (id : String) (rhs : Expr)
  | ifS (cond : Expr) (thenBlock : List Stmt) (elseBlock : List Stmt)
  | whileS (cond : Expr) (body : List Stmt)
  | printS (arg : Expr)
  | returnS (ret : Option Expr)
  | callS (id : String) (args : List Expr)

/-- A function definition: identifier, parameter (name, TYPE text)
pairs in declaration order, optional return TYPE text, body. -/
structure FuncDef where
  id : String
  params : List (String × String)
  retAnn : Option String
  body : List Stmt

/-- A script: function definitions followed by the main block. -/
structure Script where
  funcs : List FuncDef
  mainBody : List Stmt

mutual

/-- Pass-2 walk of an expression rooted at the given path: children
first, then the exit callback for the node's kind, as the ANTLR
listener does. -/
def p2Expr : Expr → List Nat → AnalyzerState → Except PyErr AnalyzerState
  | .intLit _, path, st => .ok (st.setType path (.prim .Int))
  | .strLit _, path, st => .ok (st.setType path (.prim .String))
  | .boolLit _, path, st => .ok (st.setType path (.prim .Bool))
  | .varRef nm, path, st => exitVariable path nm st
  | .neg op e, path, st => do
    let st1 ← p2Expr e (path ++ [0]) st
    exitNeg path op (path ++ [0]) st1
  | .parens e, path, st => do
    let st1 ← p2Expr e (path ++ [0]) st
    exitParens path (path ++ [0]) st1
  | .mulDiv a op b, path, st => do
    let st1 ← p2Expr a (path ++ [0]) st
    let st2 ← p2Expr b (path ++ [1]) st1
    exitMulDiv path (path ++ [0]) (path ++ [1]) op st2
  | .addSub a op b, path, st => do
    let st1 ← p2Expr a (path ++ [0]) st
    let st2 ← p2Expr b (path ++ [1]) st1
    exitAddSub path (path ++ [0]) (path ++ [1]) op st2
  | .compare a op b, path, st => do
    let st1 ← p2Expr a (path ++ [0]) st
    let st2 ← p2Expr b (path ++ [1]) st1
    exitCompare path (path ++ [0]) (path ++ [1]) op st2
  | .funcCall f args, path, st => do
    let st1 ← p2Args args path 0 st
    exitFuncCall path f ((List.range args.length).map (fun i => path ++ [i])) st1

/-- Pass-2 walk of argument expressions, the i-th child at path ++ [i]. -/
def p2Args : List Expr → List Nat → Nat → AnalyzerState → Except PyErr AnalyzerState
  | [], _, _, st => .ok st
  | e :: es, path, i, st => do
    let st1 ← p2Expr e (path ++ [i]) st
    p2Args es path (i + 1) st1

end

mutual

/-- Pass-2 walk of a statement rooted at the given path: child
expressions and blocks first, then the exit callback. -/
def p2Stmt : Stmt → List Nat → AnalyzerState → Except PyErr AnalyzerState
  | .varDec id ty initializer, path, st =>
    match initializer with
    | none => exitVarDec path id ty none st
    | some e => do
      let st1 ← p2Expr e (path ++ [0]) st
      exitVarDec path id ty (some (path ++ [0])) st1
  | .assignment id e, path, st => do
    let st1 ← p2Expr e (path ++ [0]) st
    exitAssignment path id (path ++ [0]) st1
  | .ifS c tb eb, path, st => do
    let st1 ← p2Expr c (path ++ [0]) st
    let st2 ← p2Stmts tb (path ++ [1]) 0 st1
    let st3 ← p2Stmts eb (path ++ [2]) 0 st2
    exitIf path (path ++ [0]) st3
  | .whileS c b, path, st => do
    let st1 ← p2Expr c (path ++ [0]) st
    let st2 ← p2Stmts b (path ++ [1]) 0 st1
    exitWhile path (path ++ [0]) st2
  | .printS e, path, st => do
    let st1 ← p2Expr e (path ++ [0]) st
    exitPrint path (path ++ [0]) st1
  | .returnS r, path, st =>
    match r with
    | none => exitReturn path none st
    | some e => do
      let st1 ← p2Expr e (path ++ [0]) st
      exitReturn path (some (path ++ [0])) st1
  | .callS f args, path, st => do
    let st1 ← p2Args args path 0 st
    exitFuncCall path f ((List.range args.length).map (fun i => path ++ [i])) st1

/-- Pass-2 walk of a statement list, the i-th statement at path ++ [i]. -/
def p2Stmts : List Stmt → List Nat → Nat → AnalyzerState → Except PyErr AnalyzerState
  | [], _, _, st => .ok st
  | s :: rest, path, i, st => do
    let st1 ← p2Stmt s (path ++ [i]) st
    p2Stmts rest path (i + 1) st1

end

/-- Pass-2 walk of one function definition at the given path: the
enter callback, the body statements, then the exit callback. -/
def p2FuncDef (fd : FuncDef) (path : List Nat) (st : AnalyzerState) :
    Except PyErr AnalyzerState := do
  let st1 ← p2_enterScope fd.id st
  let st2 ← p2Stmts fd.body path 0 st1
  p2_exitFuncDef fd.params st2

/-- Pass-2 walk of the function definitions, the i-th at path [i]. -/
def p2FuncDefs : List FuncDef → Nat → AnalyzerState → Except PyErr AnalyzerState
  | [], _, st => .ok st
  | fd :: rest, i, st => do
    let st1 ← p2FuncDef fd [i] st
    p2FuncDefs rest (i + 1) st1

/-- Pass 2 over a whole script: the function definitions, then the
main block (entered through child_scope_named and left through the
enclosing scope), then exitScript, which does nothing. -/
def pass2 (s : Script) (st : AnalyzerState) : Except PyErr AnalyzerState := do
  let st1 ← p2FuncDefs s.funcs 0 st
  let st2 ← p2_enterScope "$main" st1
  let st3 ← p2Stmts s.mainBody [s.funcs.length] 0 st2
  st3.popScope

/-- Pass 1 over the function definitions: only the enter and exit
callbacks fire, statements have no pass-1 handlers. -/
def p1FuncDefs : List FuncDef → AnalyzerState → Except PyErr AnalyzerState
  | [], st => .ok st
  | fd :: rest, st => do
    let st1 ← p1_enterFuncDef fd.id fd.retAnn st
    let st2 ← p1_exitFuncDef fd.id (fd.params.map (fun p => p.2)) fd.retAnn st1
    p1FuncDefs rest st2

/-- Pass 1 over a whole script. -/
def pass1 (s : Script) (st : AnalyzerState) : Except PyErr AnalyzerState := do
  let st1 ← p1FuncDefs s.funcs st
  let st2 ← p1_enterMain st1
  p1_exitMain st2

/-- The empty analysis state: a lone global scope, cursor at it, empty
node_types dictionary and empty error log. -/
def initState : AnalyzerState :=
  { globalScope := .node "$global" none [] [], cursor := some [],
    typeOf := [], log := [] }

/-- Both passes over a script, as the test helper drives them. -/
def analyzeScript (s : Script) : Except PyErr AnalyzerState := do
  let st1 ← pass1 s initState
  pass2 s st1

/-- Both passes over a bare expression, as the expression test
harness drives them: pass 1 has no expression handlers, so only the
pass-2 walk from the initial state remains. -/
def analyzeExpression (e : Expr) : Except PyErr AnalyzerState :=
  p2Expr e [] initState

/-
Observation helpers used by the theorem statements.
-/

/-- Stored type of a node after a successful run. -/
def typeAt (r : Except PyErr AnalyzerState) (p : List Nat) : Option PyVal :=
  match r with
  | .ok st => st.typeOf.lookup p
  | .error _ => none

/-- Error log of a successful run. -/
def logOf (r : Except PyErr AnalyzerState) : Option (List (List Nat × Category)) :=
  match r with
  | .ok st => some st.log
  | .error _ => none

/-- Current-scope cursor after a successful run. -/
def cursorOf (r : Except PyErr AnalyzerState) : Option (Option (List String)) :=
  match r with
  | .ok st => some st.cursor
  | .error _ => none

/-- Number of log records of the given category attached to the given
node, the countOfCategoryForNode query of the spec. -/
def faultCount (l : List (List Nat × Category)) (p : List Nat) (c : Category) : Nat :=
  (l.filter (fun f => f.1 = p ∧ f.2 = c)).length

/-- Symbol locally resolved in the scope at the given path after a
successful run. -/
def symbolIn (r : Except PyErr AnalyzerState) (path : List String) (nm : String) :
    Option Symbol :=
  match r with
  | .ok st =>
    match getScope path st.globalScope with
    | some s => s.resolveLocally nm
    | none => none
  | .error _ => none

/-- Local-only resolution against the scope the cursor points at, the
lookup exitVariable performs. -/
def localLookup (st : AnalyzerState) (nm : String) : Except PyErr (Option Symbol) := do
  let sc ← st.currentScope
  pure (sc.resolveLocally nm)

/-
Fixture states and programs used by the theorems.
-/

/-- A state whose operand nodes [0] and [1] already carry the given
inferred types, as the bottom-up walk guarantees when a binary
operator's exit callback fires. -/
def mkBin (t0 t1 : PyVal) : AnalyzerState :=
  { initState with typeOf := [([0], t0), ([1], t1)] }

/-- A state whose operand node [0] already carries the given inferred
type, for the unary-operator exit callback. -/
def mkUn (t : PyVal) : AnalyzerState :=
  { initState with typeOf := [([0], t)] }

/-- Mid-walk state of pass 2 inside a function scope with declared
return type Int. -/
def stIntFn : AnalyzerState :=
  { globalScope := .node "$global" none [] [.node "f" (some .Int) [] []],
    cursor := some ["f"], typeOf := [], log := [] }

/-- Mid-walk state of pass 2 inside a function scope with declared
return type Bool. -/
def stBoolFn : AnalyzerState :=
  { globalScope := .node "$global" none [] [.node "g" (some .Bool) [] []],
    cursor := some ["g"], typeOf := [], log := [] }

/-- Mid-walk state of pass 2 inside the entry block, whose declared
return type is Void. -/
def stMainVoid : AnalyzerState :=
  { globalScope := .node "$global" none [] [.node "$main" (some .Void) [] []],
    cursor := some ["$main"], typeOf := [], log := [] }

/-- Script declaring a function with no return-type annotation:
func f() begin end, with an empty main block. -/
def noAnnScript : Script := ⟨[⟨"f", [], none, []⟩], []⟩

/-- Script declaring a function with return-type annotation Int. -/
def intAnnScript : Script := ⟨[⟨"g", [], some "Int", []⟩], []⟩

/-- Script declaring var x : Int and then printing x. -/
def varRefScript : Script :=
  ⟨[], [.varDec "x" "Int" none, .printS (.varRef "x")]⟩

/-- Script declaring a variable with the unrecognized type name
Float. -/
def badTypeScript : Script := ⟨[], [.varDec "x" "Float" none]⟩

/-- Script for the parameter-visibility claim: a function with one Int
parameter and a Bool return annotation whose body prints that
parameter, followed by an empty main block. -/
def paramRefScript (f a : String) : Script :=
  ⟨[⟨f, [(a, "Int")], some "Bool", [.printS (.varRef a)]⟩], []⟩

/-- FunctionType symbol that pass 1 registers for the function of
paramRefScript. -/
def prsSym (f : String) : Symbol := ⟨f, .func ⟨["Int"], .Bool⟩, false⟩

/-- Scope tree after pass 1 over paramRefScript: the function's body
scope and the $main scope under the global scope, both still without
local symbols. -/
def prsTree (f : String) : ScopeTree :=
  .node "$global" none [prsSym f]
    [.node f (some .Bool) [] [], .node "$main" (some .Void) [] []]

/-- Analyzer state after pass 1 over paramRefScript. -/
def prsSt1 (f : String) : AnalyzerState := ⟨prsTree f, some [], [], []⟩

/-- State after pass 2 re-enters the function scope, before the body
is walked. -/
def prsSt2 (f : String) : AnalyzerState := ⟨prsTree f, some [f], [], []⟩

/-- Node annotations produced while walking the body of
paramRefScript. -/
def prsTypeOf : List (List Nat × PyVal) :=
  [([0, 0], .prim .ERROR), ([0, 0, 0], .prim .ERROR)]

/-- Faults logged while walking the body of paramRefScript. -/
def prsLog : List (List Nat × Category) :=
  [([0, 0, 0], .UNDEFINED_NAME), ([0, 0], .UNPRINTABLE_EXPRESSION)]

/-- State after the body of paramRefScript has been walked, before the
exitFuncDef callback fires. -/
def prsSt3 (f : String) : AnalyzerState := ⟨prsTree f, some [f], prsTypeOf, prsLog⟩

/-- Scope tree after exitFuncDef of pass 2 finally defines the
parameter in the function scope. -/
def prsTree2 (f a : String) : ScopeTree :=
  .node "$global" none [prsSym f]
    [.node f (some .Bool) [⟨a, .prim .Int, true⟩] [], .node "$main" (some .Void) [] []]

/-- State after exitFuncDef of pass 2 for paramRefScript. -/
def prsSt4 (f a : String) : AnalyzerState := ⟨prsTree2 f a, some [], prsTypeOf, prsLog⟩

/-
Theorems.  General helper lemmas come first, then one theorem per
claim of the specification audit, each preceded by a doc comment
naming the claim.
-/

theorem exceptBindError {α β : Type} (e : PyErr) (f : α → Except PyErr β) :
    (Except.error e : Except PyErr α) >>= f = .error e := rfl

theorem exceptBindOk {α β : Type} (a : α) (f : α → Except PyErr β) :
    (Except.ok a : Except PyErr α) >>= f = f a := rfl

/-- The scope-matching loop of exitFuncCall never executes a Python
return: on every state it either raises or falls off the end of the
loop.  The singleton wrapping of params blocks the zero-argument
corner case, and the inner parameter check always raises (KeyError on
a missing argument or annotation, AttributeError on params[0].type). -/
theorem funcCallLoop_result (cp : List Nat) (f : String) (args : List (List Nat))
    (cur : ScopeTree) :
    ∀ (cs : List ScopeTree) (st : AnalyzerState),
      funcCallLoop cp f args cur cs st = .ok none ∨
        ∃ e, funcCallLoop cp f args cur cs st = .error e := by
  intro cs
  induction cs with
  | nil => intro st; exact Or.inl rfl
  | cons sc rest ih =>
    intro st
    by_cases h1 : f = sc.name
    · cases args with
      | nil =>
        by_cases h2 : cur.parameters.length = 0
        · exact Or.inr ⟨.keyError, by simp [funcCallLoop, h1, h2]⟩
        · have h2' : ¬(0 = cur.parameters.length) := fun h => h2 h.symm
          simpa [funcCallLoop, h1, h2'] using ih st
      | cons a0 as =>
        by_cases h2 : as.length + 1 = cur.parameters.length
        · right
          cases hl : lookupType st a0 with
          | error e =>
            exact ⟨e, by simp [funcCallLoop, h1, h2, hl, List.getElem?_cons_zero, exceptBindError]⟩
          | ok v =>
            exact ⟨.attributeError,
              by simp [funcCallLoop, h1, h2, hl, List.getElem?_cons_zero, exceptBindOk]⟩
        · simpa [funcCallLoop, h1, h2] using ih st
    · simpa [funcCallLoop, h1] using ih st

/-- C1.  The claim states that a return carrying an expression logs an
InvalidReturn fault exactly when the expression's type differs from
the declared return type.  The code instead logs exactly one
InvalidReturn fault for every return that carries an expression: with
declared return type Int and a returned Int literal (types equal, the
claim demands no fault) the negated elif chain of exitReturn still
logs one fault, just as in the genuinely mismatched Bool/Int case. -/
theorem claim_C1 :
    logOf (p2Stmt (.returnS (some (.intLit 5))) [0] stIntFn)
        = some [([0], Category.INVALID_RETURN)] ∧
    logOf (p2Stmt (.returnS (some (.intLit 5))) [0] stBoolFn)
        = some [([0], Category.INVALID_RETURN)] := ⟨rfl, rfl⟩

/-- C2.  The claim states that printing an Int operand logs no fault
and does not type the print node ERROR.  The code's condition
(type == ERROR or PrimitiveType.Void) is always true because the bare
enum member is truthy, so print 5 is typed ERROR and logs an
UnprintableExpression fault. -/
theorem claim_C2 :
    logOf (p2Stmt (.printS (.intLit 5)) [0] initState)
        = some [([0], Category.UNPRINTABLE_EXPRESSION)] ∧
    typeAt (p2Stmt (.printS (.intLit 5)) [0] initState) [0]
        = some (.prim .ERROR) := ⟨rfl, rfl⟩

/-- C3.  The claim describes fault logging and result typing for
function calls; the code's exitFuncCall can complete none of those
outcomes: on every analyzer state and every call node it raises a
Python exception (KeyError or AttributeError) before logging a fault
or typing the node, so no call is ever typed with the callee's return
type and no InvalidCall fault is ever recorded by a completed
callback. -/
theorem claim_C3 (callPath : List Nat) (fname : String) (args : List (List Nat))
    (st : AnalyzerState) : ∃ e, exitFuncCall callPath fname args st = .error e := by
  cases hc : st.cursor with
  | none =>
    exact ⟨.attributeError, by simp [exitFuncCall, AnalyzerState.currentScope, hc, exceptBindError]⟩
  | some p =>
    cases hg : getScope p st.globalScope with
    | none =>
      exact ⟨.keyError, by simp [exitFuncCall, AnalyzerState.currentScope, hc, hg, exceptBindError]⟩
    | some sc =>
      rcases funcCallLoop_result callPath fname args sc sc.children st with h | ⟨e, h⟩
      · exact ⟨.attributeError,
          by simp [exitFuncCall, AnalyzerState.currentScope, hc, hg, h, exceptBindOk, exceptBindError]⟩
      · exact ⟨e,
          by simp [exitFuncCall, AnalyzerState.currentScope, hc, hg, h, exceptBindOk, exceptBindError]⟩

/-- C3 witness: the always-raising behavior instantiated at a concrete
call, f() issued from the entry block. -/
theorem claim_C3_witness :
    ∃ e, exitFuncCall [1, 0] "f" [] stMainVoid = .error e :=
  claim_C3 [1, 0] "f" [] stMainVoid

/-- C4.  The claim states that the pass-2 current-scope cursor changes
only at scope enter and exit events, so it is unchanged across a
return statement.  The code's exitReturn unconditionally assigns
current_scope.enclosing_scope to the cursor: processing a bare return
inside the entry block moves the cursor from the $main scope to the
global scope while logging nothing. -/
theorem claim_C4 :
    stMainVoid.cursor = some ["$main"] ∧
    cursorOf (p2Stmt (.returnS none) [0] stMainVoid) = some (some []) ∧
    logOf (p2Stmt (.returnS none) [0] stMainVoid) = some [] := ⟨rfl, rfl, rfl⟩

/-- C5.  The claim states that after pass 1 every function's
FunctionType symbol sits in the scope enclosing the function's body
scope, never in the body scope, with or without a return-type
annotation.  With an annotation the code does define the symbol in the
enclosing (here global) scope, but the no-annotation branch calls
define on the current scope, so func f() registers f inside f's own
body scope and the global scope has no entry for f. -/
theorem claim_C5 :
    symbolIn (pass1 noAnnScript initState) ["f"] "f"
        = some ⟨"f", .func ⟨[], .Void⟩, false⟩ ∧
    symbolIn (pass1 noAnnScript initState) [] "f" = none ∧
    symbolIn (pass1 intAnnScript initState) [] "g"
        = some ⟨"g", .func ⟨[], .Int⟩, false⟩ ∧
    symbolIn (pass1 intAnnScript initState) ["g"] "g" = none :=
  ⟨rfl, rfl, rfl, rfl⟩

/-- C6.  The claim states that a resolved variable reference is
annotated with the symbol's declared PrimitiveType.  The unresolved
half behaves as claimed (ERROR plus one UndefinedName fault), but for
a resolved reference the code stores the Symbol object returned by
resolve_locally itself, not its type: after var x : Int, the reference
x is annotated with the Symbol, not with Int. -/
theorem claim_C6 :
    typeAt (analyzeScript varRefScript) [0, 1, 0]
        = some (.sym ⟨"x", .prim .Int, false⟩) ∧
    typeAt (analyzeScript varRefScript) [0, 1, 0] ≠ some (.prim .Int) ∧
    typeAt (analyzeExpression (.varRef "x")) [] = some (.prim .ERROR) ∧
    logOf (analyzeExpression (.varRef "x"))
        = some [([], Category.UNDEFINED_NAME)] := by
  refine ⟨rfl, ?_, rfl, rfl⟩
  decide

/-- C7.  The claim states that a variable declaration with an
unrecognized type name logs exactly one AssignToWrongType fault,
creates no symbol, and never aborts the analysis.  The code's fault
message formats self.type_of[ctx].name, and the declaration node has
no node_types entry, so the analysis of var x : Float raises KeyError
before any fault is logged. -/
theorem claim_C7 : analyzeScript badTypeScript = .error .keyError := rfl

theorem lookupType_mkBin0 (t0 t1 : PyVal) : lookupType (mkBin t0 t1) [0] = .ok t0 := rfl

theorem lookupType_mkBin1 (t0 t1 : PyVal) : lookupType (mkBin t0 t1) [1] = .ok t1 := rfl

theorem lookupType_mkUn (t : PyVal) : lookupType (mkUn t) [0] = .ok t := rfl

theorem negFail_mkUn (t : PyVal) :
    negFail [] (mkUn t) =
      .ok (((mkUn t).setType [] (.prim .ERROR)).logFault [] .INVALID_NEGATION) := rfl

/-- C8.  The binary-operator compatibility table of the spec holds on
the code.  The two universal parts restate the table in the spec's
shape over arbitrary already-typed operands: for the additive
operators, Int operands yield Int and String operands with plus yield
String, everything else takes the else path typing the node ERROR and
logging exactly one InvalidBinaryOp fault; for the comparison
operators, Int operands always yield Bool and Bool operands yield Bool
only under the equality operator.  The closed parts run the full
analysis on the five example expressions of the spec. -/
theorem claim_C8 :
    (∀ (t0 t1 : PyVal) (op : String), op = "+" ∨ op = "-" →
      exitAddSub [] [0] [1] op (mkBin t0 t1) =
        .ok (if t0 = .prim .Int ∧ t1 = .prim .Int then
               (mkBin t0 t1).setType [] (.prim .Int)
             else if t0 = .prim .String ∧ t1 = .prim .String ∧ op = "+" then
               (mkBin t0 t1).setType [] (.prim .String)
             else binFail [] (mkBin t0 t1))) ∧
    (∀ (t0 t1 : PyVal) (op : String), op = "==" ∨ op = "<" ∨ op = "<=" →
      exitCompare [] [0] [1] op (mkBin t0 t1) =
        .ok (if (t0 = .prim .Int ∧ t1 = .prim .Int) ∨
               (t0 = .prim .Bool ∧ t1 = .prim .Bool ∧ op = "==") then
               (mkBin t0 t1).setType [] (.prim .Bool)
             else binFail [] (mkBin t0 t1))) ∧
    (typeAt (analyzeExpression (.addSub (.intLit 5) "+" (.intLit 3))) []
        = some (.prim .Int) ∧
      logOf (analyzeExpression (.addSub (.intLit 5) "+" (.intLit 3))) = some []) ∧
    (typeAt (analyzeExpression (.addSub (.strLit "hello") "+" (.strLit "world"))) []
        = some (.prim .String) ∧
      logOf (analyzeExpression (.addSub (.strLit "hello") "+" (.strLit "world")))
        = some []) ∧
    (typeAt (analyzeExpression (.compare (.intLit 5) "<=" (.intLit 3))) []
        = some (.prim .Bool) ∧
      logOf (analyzeExpression (.compare (.intLit 5) "<=" (.intLit 3))) = some []) ∧
    (typeAt (analyzeExpression (.addSub (.boolLit true) "-" (.intLit 5))) []
        = some (.prim .ERROR) ∧
      logOf (analyzeExpression (.addSub (.boolLit true) "-" (.intLit 5)))
        = some [([], Category.INVALID_BINARY_OP)]) ∧
    (typeAt (analyzeExpression (.compare (.boolLit false) "<" (.intLit 3))) []
        = some (.prim .ERROR) ∧
      logOf (analyzeExpression (.compare (.boolLit false) "<" (.intLit 3)))
        = some [([], Category.INVALID_BINARY_OP)]) := by
  refine ⟨?_, ?_, ⟨rfl, rfl⟩, ⟨rfl, rfl⟩, ⟨rfl, rfl⟩, ⟨rfl, rfl⟩, ⟨rfl, rfl⟩⟩
  · intro t0 t1 op hop
    simp only [exitAddSub, lookupType_mkBin0, lookupType_mkBin1, exceptBindOk]
    split_ifs <;> first | rfl | simp_all
  · intro t0 t1 op hop
    simp only [exitCompare, lookupType_mkBin0, lookupType_mkBin1, exceptBindOk]
    split_ifs <;> first | rfl | simp_all

/-- C8 witness: the table instantiated at concrete inputs, Bool minus
Int faulting and Int compared with less-than succeeding. -/
theorem claim_C8_witness :
    exitAddSub [] [0] [1] "-" (mkBin (.prim .Bool) (.prim .Int))
        = .ok (binFail [] (mkBin (.prim .Bool) (.prim .Int))) ∧
    exitCompare [] [0] [1] "<" (mkBin (.prim .Int) (.prim .Int))
        = .ok ((mkBin (.prim .Int) (.prim .Int)).setType [] (.prim .Bool)) := by
  constructor
  · have h := claim_C8.1 (.prim .Bool) (.prim .Int) "-" (Or.inr rfl)
    simpa using h
  · have h := claim_C8.2.1 (.prim .Int) (.prim .Int) "<" (Or.inr (Or.inl rfl))
    simpa using h

/-- C9.  The unary-operator rule of the spec holds on the code: minus
on Int yields Int, bang on Bool yields Bool, and any other
operand/operator combination types the node ERROR and logs one
InvalidNegation fault for that node.  Analysis of the expression bang
37 types the root ERROR with exactly that one fault; for the doubly
negated bang bang 37 the root is typed ERROR, the full log carries one
InvalidNegation fault on the inner node and one on the root, and the
per-node count on the whole expression (the countOfCategoryForNode
query the spec's harness uses) is exactly one. -/
theorem claim_C9 :
    (∀ (t : PyVal) (op : String), op = "-" ∨ op = "!" →
      exitNeg [] op [0] (mkUn t) =
        .ok (if op = "-" ∧ t = .prim .Int then (mkUn t).setType [] (.prim .Int)
             else if op = "!" ∧ t = .prim .Bool then (mkUn t).setType [] (.prim .Bool)
             else ((mkUn t).setType [] (.prim .ERROR)).logFault [] .INVALID_NEGATION)) ∧
    (typeAt (analyzeExpression (.neg "!" (.intLit 37))) [] = some (.prim .ERROR) ∧
      logOf (analyzeExpression (.neg "!" (.intLit 37)))
        = some [([], Category.INVALID_NEGATION)]) ∧
    (typeAt (analyzeExpression (.neg "!" (.neg "!" (.intLit 37)))) []
        = some (.prim .ERROR) ∧
      logOf (analyzeExpression (.neg "!" (.neg "!" (.intLit 37))))
        = some [([0], Category.INVALID_NEGATION), ([], Category.INVALID_NEGATION)] ∧
      faultCount [([0], Category.INVALID_NEGATION), ([], Category.INVALID_NEGATION)]
        [] Category.INVALID_NEGATION = 1) := by
  refine ⟨?_, ⟨rfl, rfl⟩, ⟨rfl, rfl, rfl⟩⟩
  intro t op hop
  simp only [exitNeg, lookupType_mkUn, exceptBindOk, negFail_mkUn]
  split_ifs <;> first | rfl | simp_all

/-- C9 witness: the unary rule instantiated at bang applied to an Int
operand, which faults. -/
theorem claim_C9_witness :
    exitNeg [] "!" [0] (mkUn (.prim .Int))
      = .ok (((mkUn (.prim .Int)).setType [] (.prim .ERROR)).logFault []
          .INVALID_NEGATION) := by
  have h := claim_C9.1 (.prim .Int) "!" (Or.inr rfl)
  simpa using h

/-- C10.  Pass 2 defines a function's parameters only in its
exitFuncDef callback, after the whole body has been walked: for any
function and parameter names, after pass 1 and the pass-2 re-entry
into the function scope the parameter is still not locally resolvable,
it remains unresolvable after the entire body has been walked, and
only the exit callback installs it; consequently the body's reference
to the parameter is typed ERROR and receives exactly one UndefinedName
fault.  The closed part runs the complete two-pass analysis on a
concrete instance and observes the same outcome. -/
theorem claim_C10 :
    (∀ f a : String,
      pass1 (paramRefScript f a) initState = .ok (prsSt1 f) ∧
      p2_enterScope f (prsSt1 f) = .ok (prsSt2 f) ∧
      localLookup (prsSt2 f) a = .ok none ∧
      p2Stmts [Stmt.printS (.varRef a)] [0] 0 (prsSt2 f) = .ok (prsSt3 f) ∧
      (prsSt3 f).typeOf.lookup [0, 0, 0] = some (.prim .ERROR) ∧
      faultCount (prsSt3 f).log [0, 0, 0] Category.UNDEFINED_NAME = 1 ∧
      localLookup (prsSt3 f) a = .ok none ∧
      p2_exitFuncDef [(a, "Int")] (prsSt3 f) = .ok (prsSt4 f a) ∧
      symbolIn (.ok (prsSt4 f a)) [f] a = some ⟨a, .prim .Int, true⟩) ∧
    (typeAt (analyzeScript (paramRefScript "f" "a")) [0, 0, 0]
        = some (.prim .ERROR) ∧
      logOf (analyzeScript (paramRefScript "f" "a"))
        = some [([0, 0, 0], Category.UNDEFINED_NAME),
                ([0, 0], Category.UNPRINTABLE_EXPRESSION)] ∧
      symbolIn (analyzeScript (paramRefScript "f" "a")) ["f"] "a"
        = some ⟨"a", .prim .Int, true⟩) := by
  refine ⟨?_, ⟨rfl, rfl, rfl⟩⟩
  intro f a
  refine ⟨rfl, ?_, ?_, ?_, rfl, rfl, ?_, ?_, ?_⟩
  · simp [p2_enterScope, AnalyzerState.currentScope, prsSt1, prsSt2, prsTree, getScope,
      ScopeTree.childNamed, ScopeTree.name, List.find?, exceptBindOk]
  · simp [localLookup, AnalyzerState.currentScope, prsSt2, prsTree, getScope,
      ScopeTree.childNamed, ScopeTree.name, ScopeTree.resolveLocally, ScopeTree.symbols,
      List.find?, exceptBindOk]
  · simp [p2Stmts, p2Stmt, p2Expr, exitVariable, exitPrint, AnalyzerState.currentScope,
      prsSt2, prsSt3, prsTree, prsTypeOf, prsLog, getScope, ScopeTree.childNamed,
      ScopeTree.name, ScopeTree.resolveLocally, ScopeTree.symbols, List.find?,
      AnalyzerState.setType, AnalyzerState.logFault, lookupType, pyTruthy, exceptBindOk]
  · simp [localLookup, AnalyzerState.currentScope, prsSt3, prsTree, getScope,
      ScopeTree.childNamed, ScopeTree.name, ScopeTree.resolveLocally, ScopeTree.symbols,
      List.find?, exceptBindOk]
  · simp [p2_exitFuncDef, p2_defineParams, defineInCurrent, AnalyzerState.popScope,
      prsSt3, prsSt4, prsTree, prsTree2, updateAt, replaceChild, ScopeTree.defineHere,
      ScopeTree.name, exceptBindOk]
  · simp [symbolIn, prsSt4, prsTree2, getScope, ScopeTree.childNamed, ScopeTree.name,
      ScopeTree.resolveLocally, ScopeTree.symbols, List.find?]

end Nimble
